import Mathlib

/-!
Shallow embedding of the inter-process output-multiplexing and worker-control
subsystem of qcodes (src/qcodes/utils/multiprocessing.py), together with
theorems settling the frozen claims about it.

Modelling conventions:
- Python strings that the StreamQueue component slices and scans character by
  character are modelled as `List Char` (abbreviated `Str`); Python slicing
  `s[:-1]` is `List.dropLast`, `s[-1]` is `List.getLast?` (raising IndexError
  on the empty string), and `str.replace` with the single-character pattern
  newline is the recursive `replaceNl`.
- Wall-clock values of `time.time()` are integers (`Int`); the components of
  `datetime.now()` are passed in explicitly, and `strftime` with the format
  HH:MM:SS followed by microseconds is modelled digit-faithfully.
- Mutation is explicit state passing; a Python method that can raise returns
  `Except PyErr` PAIRED with the state after the call, because mutations made
  before a raise persist in Python.
- The code runs in true OS processes; the embedding gives the sequential
  semantics of each call (the query lock makes the request/response critical
  section sequential, and queue snapshots do not change mid-call).
-/

/-- Python strings handled character-wise. -/
abbrev Str := List Char

/-- Coerce a Lean string literal to a character list. -/
def str (s : String) : Str := s.data

/-- Python exceptions that the modelled code can raise. -/
inductive PyErr where
  /-- RuntimeError with its message. -/
  | runtimeError (msg : String)
  /-- IndexError from indexing into an empty string. -/
  | indexError
  /-- Any exception raised inside the try-block of SQWriter.write
      (for example by queue.put or by the timestamp formatting). -/
  | putError
  /-- queue.Empty raised by a timed-out Queue.get. -/
  | empty
  /-- TypeError from calling a function with a missing required argument. -/
  | typeError (msg : String)
  /-- NameError from reading a local variable that was never bound. -/
  | nameError
deriving DecidableEq, Repr

/-- A stdout/stderr handle of a process: either a real OS-level stream or an
installed SQWriter redirection tagged with its stream name. -/
inductive IOHandle where
  | real (id : Nat)
  | sqWriter (stream_name : Str)
deriving DecidableEq, Repr

/-- One message of the stream queue: the tuple (timestr, stream_name, msg)
built by SQWriter.write (source lines 172-174). -/
structure SQMessage where
  timestr : Str
  stream_name : Str
  msg : Str
deriving DecidableEq, Repr

/-- The per-process stream state touched by StreamQueue.connect/disconnect and
by the except-branch of SQWriter.write: the assignable sys.stdout and
sys.stderr, the immutable originals sys.__stdout__ and sys.__stderr__, and the
lines printed directly to the real terminal stream. -/
structure ProcIO where
  sys_stdout : IOHandle
  sys_stderr : IOHandle
  dunder_stdout : IOHandle
  dunder_stderr : IOHandle
  terminal : List Str
deriving DecidableEq, Repr

/-- State of the StreamQueue singleton (source lines 118-124): the shared
message queue, the shared last-read timestamp, the drain-side cursor fields
_last_stream and _on_new_line, and the recorded initial streams (None when
not connected). -/
structure StreamQueue where
  queue : List SQMessage
  last_read_ts : Int
  _last_stream : Option Str
  _on_new_line : Bool
  initial_streams : Option (IOHandle × IOHandle)
deriving DecidableEq, Repr

namespace StreamQueue

/-- StreamQueue.connect (source lines 126-133): raise if already connected,
otherwise record the current sys.stdout/sys.stderr and install two SQWriters,
the second tagged with the name suffixed by ERR. -/
def connect (sq : StreamQueue) (ps : ProcIO) (process_name : Str) :
    Except PyErr Unit × StreamQueue × ProcIO :=
  match sq.initial_streams with
  | some _ => (.error (.runtimeError "StreamQueue is already connected"), sq, ps)
  | none =>
      let sq := { sq with initial_streams := some (ps.sys_stdout, ps.sys_stderr) }
      let ps := { ps with
        sys_stdout := .sqWriter process_name
        sys_stderr := .sqWriter (process_name ++ str " ERR") }
      (.ok (), sq, ps)

/-- StreamQueue.disconnect (source lines 135-139): raise if not connected,
otherwise restore the recorded handles and clear initial_streams. -/
def disconnect (sq : StreamQueue) (ps : ProcIO) :
    Except PyErr Unit × StreamQueue × ProcIO :=
  match sq.initial_streams with
  | none => (.error (.runtimeError "StreamQueue is not connected"), sq, ps)
  | some (o, e) =>
      (.ok (), { sq with initial_streams := none },
       { ps with sys_stdout := o, sys_stderr := e })

end StreamQueue

/-- Zero-padded fixed-width decimal rendering, as strftime does for the
numeric fields of the format string. -/
def padDigits (width n : Nat) : Str :=
  let d := Nat.toDigits 10 n
  List.replicate (width - d.length) '0' ++ d

/-- The strftime format HH:MM:SS.microseconds used at source line 172:
two-digit hour, minute and second, then a dot and six-digit microseconds. -/
def strftimeHMSf (hour minute second micro : Nat) : Str :=
  padDigits 2 hour ++ str ":" ++ padDigits 2 minute ++ str ":" ++
    padDigits 2 second ++ str "." ++ padDigits 6 micro

/-- Python slicing s[:-3]: everything but the last three characters. Applied
to the strftime output it truncates microseconds to milliseconds. -/
def sliceDropLast3 (l : Str) : Str := l.take (l.length - 3)

/-- The timestamp enqueued with every message (source line 172). -/
def nowTimestr (hour minute second micro : Nat) : Str :=
  sliceDropLast3 (strftimeHMSf hour minute second micro)

/-- The format string of both the line head at source line 145 and the
terminal fallback line at source line 181: an opening bracket, the timestamp,
a space, the stream name, a closing bracket and a space. -/
def lineHeadOf (timestr stream_name : Str) : Str :=
  str "[" ++ timestr ++ str " " ++ stream_name ++ str "] "

namespace SQWriter

/-- The staleness threshold MIN_READ_TIME of the writer (source line 162). -/
def MIN_READ_TIME : Int := 3

/-- The environment a call to SQWriter.write observes: the current
time.time() value, the components of datetime.now(), and whether the
try-block raises (modelling a failure of queue.put or of the message
formatting). -/
structure WriteEnv where
  now : Int
  hour : Nat
  minute : Nat
  second : Nat
  micro : Nat
  put_raises : Bool
deriving DecidableEq, Repr

/-- SQWriter.write (source lines 169-197). On empty msg the body does
nothing. Otherwise the tuple (timestr, stream_name, msg) is enqueued; then,
when the queue has not been read for more than MIN_READ_TIME seconds and msg
is not a bare newline, the formatted line with a single trailing newline
trimmed is printed to sys.__stdout__ (modelled by appending to
ProcIO.terminal). Any exception inside the try-block restores sys.stdout and
sys.stderr from sys.__stdout__ and sys.__stderr__ and propagates. -/
def write (env : WriteEnv) (stream_name : Str) (sq : StreamQueue) (ps : ProcIO)
    (msg : Str) : Except PyErr Unit × StreamQueue × ProcIO :=
  if msg = [] then (.ok (), sq, ps)
  else if env.put_raises then
    (.error .putError, sq,
     { ps with sys_stdout := ps.dunder_stdout, sys_stderr := ps.dunder_stderr })
  else
    let timestr := nowTimestr env.hour env.minute env.second env.micro
    let msgtuple : SQMessage := ⟨timestr, stream_name, msg⟩
    let sq := { sq with queue := sq.queue ++ [msgtuple] }
    let queue_age := env.now - sq.last_read_ts
    if queue_age > MIN_READ_TIME ∧ msg ≠ str "\n" then
      let termstr := lineHeadOf timestr stream_name ++ msg
      let termstr := if termstr.getLast? = some '\n' then termstr.dropLast else termstr
      (.ok (), sq, { ps with terminal := ps.terminal ++ [termstr] })
    else
      (.ok (), sq, ps)

end SQWriter

/-- Python str.replace with the single-character pattern newline: every
newline character of the input is replaced by rep. -/
def replaceNl (rep : Str) : Str → Str
  | [] => []
  | c :: cs => (if c = '\n' then rep else [c]) ++ replaceNl rep cs

namespace StreamQueue

/-- One iteration of the StreamQueue.get drain loop (source lines 144-155),
acting on the cursor pair (_on_new_line, _last_stream) and producing the text
appended to out. Indexing msg with -1 raises IndexError when msg is empty. -/
def getStep (on_new_line : Bool) (last_stream : Option Str) (m : SQMessage) :
    Except PyErr (Str × Bool × Option Str) :=
  let line_head := lineHeadOf m.timestr m.stream_name
  let pre : Str :=
    if on_new_line then line_head
    else if some m.stream_name ≠ last_stream then str "\n" ++ line_head
    else []
  match m.msg.getLast? with
  | none => .error .indexError
  | some lastc =>
      .ok (pre ++ (replaceNl ('\n' :: line_head) m.msg.dropLast ++ [lastc]),
           lastc = '\n', some m.stream_name)

/-- The drain loop of StreamQueue.get over the remaining queued messages. -/
def getLoop (on_new_line : Bool) (last_stream : Option Str) (acc : Str) :
    List SQMessage → Except PyErr (Str × Bool × Option Str)
  | [] => .ok (acc, on_new_line, last_stream)
  | m :: ms => do
      let (chunk, onl, last) ← getStep on_new_line last_stream m
      getLoop onl last (acc ++ chunk) ms

/-- StreamQueue.get (source lines 141-158): drain the queue through the loop,
then set last_read_ts to the current time (also when the queue was empty)
and return the accumulated text. -/
def get (sq : StreamQueue) (now : Int) : Except PyErr (Str × StreamQueue) :=
  match getLoop sq._on_new_line sq._last_stream [] sq.queue with
  | .error e => .error e
  | .ok (out, onl, last) =>
      .ok (out, { sq with queue := [], _on_new_line := onl, _last_stream := last,
                          last_read_ts := now })

end StreamQueue

/-- State of a ServerManager (source lines 211-231): its name, the three
channels (query, response, error), the default query timeout, the name and
liveness of the worker process started by _start_server, and the lines the
manager prints to the controller sys.stderr. A queued response is a pair of
the number of seconds after the get call at which it arrives and its payload;
queries are tuples of strings. The query lock serializes ask calls, so each
call is modelled sequentially. -/
structure ServerManager where
  name : String
  query_queue : List (List String)
  response_queue : List (Int × String)
  error_queue : List String
  query_timeout : Int
  server_name : String
  server_alive : Bool
  stderr : List String
deriving DecidableEq, Repr

namespace ServerManager

/-- ServerManager._check_for_errors (source lines 244-249): when the error
channel is non-empty, dequeue one message, print the formatted header and the
error text to sys.stderr, and raise RuntimeError carrying the header. -/
def _check_for_errors (sm : ServerManager) : Except PyErr Unit × ServerManager :=
  match sm.error_queue with
  | [] => (.ok (), sm)
  | errstr :: rest =>
      let errhead := "*** error on " ++ sm.name ++ " ***"
      (.error (.runtimeError errhead),
       { sm with error_queue := rest,
                 stderr := sm.stderr ++ [errhead ++ "\n\n" ++ errstr] })

/-- ServerManager.write (source lines 237-242): enqueue the argument tuple on
the query channel, then check the error channel. -/
def write (sm : ServerManager) (query : List String) :
    Except PyErr Unit × ServerManager :=
  let sm := { sm with query_queue := sm.query_queue ++ [query] }
  _check_for_errors sm

/-- Models self._response_queue.get(timeout=t) at source line 260: the next
response arrives ta seconds after the call; the get returns it when ta is
within the timeout and raises Empty otherwise, leaving the unarrived item. -/
def _get_response (resp : List (Int × String)) (t : Int) :
    Option (String × List (Int × String)) :=
  match resp with
  | (ta, r) :: rest => if ta ≤ t then some (r, rest) else none
  | [] => none

/-- Models the assignment timeout = timeout or self.query_timeout at source
line 255: Python or substitutes the default whenever the passed value is
falsy, which for this argument means None or the number zero. -/
def _effective_timeout (timeout : Option Int) (query_timeout : Int) : Int :=
  match timeout with
  | none => query_timeout
  | some n => if n = 0 then query_timeout else n

/-- The except-Empty handler of ask plus the code after it (source lines
261-267): if the error channel is empty the Empty timeout error is re-raised
as-is; otherwise control falls through to _check_for_errors, which (the error
channel being non-empty) raises. Were _check_for_errors not to raise there,
the return of res would read a local that was never bound, a NameError; with
the sequential snapshot this branch is unreachable. -/
def _ask_empty (sm : ServerManager) : Except PyErr String × ServerManager :=
  if sm.error_queue = [] then (.error .empty, sm)
  else
    match _check_for_errors sm with
    | (.error e, sm) => (.error e, sm)
    | (.ok _, sm) => (.error .nameError, sm)

/-- ServerManager.ask (source lines 251-267): substitute the default for a
falsy timeout, enqueue the query under the query lock, block on the response
channel up to the timeout, handle Empty through _ask_empty, and otherwise run
_check_for_errors before returning the dequeued response. -/
def ask (sm : ServerManager) (query : List String) (timeout : Option Int) :
    Except PyErr String × ServerManager :=
  let t := _effective_timeout timeout sm.query_timeout
  let sm := { sm with query_queue := sm.query_queue ++ [query] }
  match _get_response sm.response_queue t with
  | some (r, rest) =>
      let sm := { sm with response_queue := rest }
      match _check_for_errors sm with
      | (.error e, sm) => (.error e, sm)
      | (.ok _, sm) => (.ok r, sm)
  | none => _ask_empty sm

/-- Models self._server.join(): wait until the worker process has exited.
The sequential model reaches a join only after the server accepted the halt
query or was observed dead, so after the join the process is not alive. -/
def join (sm : ServerManager) : ServerManager :=
  { sm with server_alive := false }

/-- ServerManager.halt (source lines 269-275): ask the literal query halt
when the worker process is alive (an exception from ask propagates and skips
the join), then join the process. -/
def halt (sm : ServerManager) : Except PyErr Unit × ServerManager :=
  if sm.server_alive then
    match ask sm [ "halt"] none with
    | (.error e, sm) => (.error e, sm)
    | (.ok _, sm) => (.ok (), join sm)
  else (.ok (), join sm)

/-- ServerManager._start_server (source lines 229-231): launch a fresh
QcodesProcess named name running _run_server. It requires the positional
argument name. -/
def _start_server (sm : ServerManager) (name : String) : ServerManager :=
  { sm with server_name := name, server_alive := true }

/-- ServerManager.restart (source lines 277-282): call halt, then evaluate
self._start_server(). The call omits the required positional argument name of
_start_server, so Python raises TypeError at the call site before any new
process is started; _start_server is never entered. -/
def restart (sm : ServerManager) : Except PyErr Unit × ServerManager :=
  match halt sm with
  | (.error e, sm) => (.error e, sm)
  | (.ok _, sm) =>
      (.error (.typeError "_start_server missing 1 required positional argument"), sm)

end ServerManager

/-- Claim C4: connect followed by disconnect restores exactly the handles
recorded at connect time; connect while connected and disconnect while not
connected each fail with the corresponding RuntimeError without mutating the
StreamQueue state or the stream handles. -/
theorem claim_C4 (sq : StreamQueue) (ps : ProcIO) (name : Str) :
    (sq.initial_streams = none →
      ∃ sq₁ ps₁,
        sq.connect ps name = (.ok (), sq₁, ps₁) ∧
        sq₁.disconnect ps₁ =
          (.ok (), { sq₁ with initial_streams := none },
           { ps₁ with sys_stdout := ps.sys_stdout, sys_stderr := ps.sys_stderr })) ∧
    (sq.initial_streams ≠ none →
      sq.connect ps name =
        (.error (.runtimeError "StreamQueue is already connected"), sq, ps)) ∧
    (sq.initial_streams = none →
      sq.disconnect ps =
        (.error (.runtimeError "StreamQueue is not connected"), sq, ps)) := by
  refine ⟨fun h => ?_, fun h => ?_, fun h => ?_⟩
  · refine ⟨{ sq with initial_streams := some (ps.sys_stdout, ps.sys_stderr) },
      { ps with sys_stdout := .sqWriter name,
                sys_stderr := .sqWriter (name ++ str " ERR") }, ?_, ?_⟩ <;>
      simp [StreamQueue.connect, StreamQueue.disconnect, h]
  · match hs : sq.initial_streams with
    | none => exact absurd hs h
    | some p => simp [StreamQueue.connect, hs]
  · simp [StreamQueue.disconnect, h]

/-- Witness for C4 at a concrete disconnected StreamQueue. -/
theorem claim_C4_witness :
    let sq : StreamQueue :=
      { queue := [], last_read_ts := 0, _last_stream := none,
        _on_new_line := true, initial_streams := none }
    let ps : ProcIO :=
      { sys_stdout := .real 1, sys_stderr := .real 2,
        dunder_stdout := .real 1, dunder_stderr := .real 2, terminal := [] }
    ∃ sq₁ ps₁,
      sq.connect ps (str "W1") = (.ok (), sq₁, ps₁) ∧
      sq₁.disconnect ps₁ =
        (.ok (), { sq₁ with initial_streams := none },
         { ps₁ with sys_stdout := ps.sys_stdout, sys_stderr := ps.sys_stderr }) := by
  exact (claim_C4 _ _ _).1 rfl

/-- Claim C8: when the try-block of SQWriter.write raises (enqueuing or
formatting fails) on a non-empty text, the original stdout and stderr handles
of the process are restored before the failure propagates, and nothing is
enqueued. -/
theorem claim_C8 (env : SQWriter.WriteEnv) (sn : Str) (sq : StreamQueue)
    (ps : ProcIO) (msg : Str) (hmsg : msg ≠ []) (hfail : env.put_raises = true) :
    SQWriter.write env sn sq ps msg =
      (.error .putError, sq,
       { ps with sys_stdout := ps.dunder_stdout, sys_stderr := ps.dunder_stderr }) := by
  simp [SQWriter.write, hmsg, hfail]

/-- Witness for C8 at a concrete failing write. -/
theorem claim_C8_witness :
    let env : SQWriter.WriteEnv :=
      { now := 10, hour := 1, minute := 2, second := 3, micro := 4, put_raises := true }
    let sq : StreamQueue :=
      { queue := [], last_read_ts := 0, _last_stream := none,
        _on_new_line := true, initial_streams := none }
    let ps : ProcIO :=
      { sys_stdout := .sqWriter (str "W1"), sys_stderr := .sqWriter (str "W1 ERR"),
        dunder_stdout := .real 1, dunder_stderr := .real 2, terminal := [] }
    SQWriter.write env (str "W1") sq ps (str "hi") =
      (.error .putError, sq,
       { ps with sys_stdout := .real 1, sys_stderr := .real 2 }) := by
  exact claim_C8 _ _ _ _ _ (by decide) rfl

/-- Claim C5: a successful SQWriter.write of empty text changes nothing;
of non-empty text enqueues exactly the one message carrying the truncated
timestamp, the stream name and the text, and additionally prints the
formatted line (with one trailing newline trimmed) to the real terminal
stream exactly when the queue is more than MIN_READ_TIME seconds stale and
the text is not a bare newline. -/
theorem claim_C5 (env : SQWriter.WriteEnv) (sn : Str) (sq : StreamQueue)
    (ps : ProcIO) (msg : Str) (hok : env.put_raises = false) :
    (msg = [] → SQWriter.write env sn sq ps msg = (.ok (), sq, ps)) ∧
    (msg ≠ [] →
      (SQWriter.write env sn sq ps msg).1 = .ok () ∧
      (SQWriter.write env sn sq ps msg).2.1 =
        { sq with queue := sq.queue ++
            [⟨nowTimestr env.hour env.minute env.second env.micro, sn, msg⟩] } ∧
      (env.now - sq.last_read_ts > SQWriter.MIN_READ_TIME ∧ msg ≠ str "\n" →
        (msg.getLast? = some '\n' →
          (SQWriter.write env sn sq ps msg).2.2 =
            { ps with terminal := ps.terminal ++
                [lineHeadOf (nowTimestr env.hour env.minute env.second env.micro) sn
                  ++ msg.dropLast] }) ∧
        (msg.getLast? ≠ some '\n' →
          (SQWriter.write env sn sq ps msg).2.2 =
            { ps with terminal := ps.terminal ++
                [lineHeadOf (nowTimestr env.hour env.minute env.second env.micro) sn
                  ++ msg] })) ∧
      (¬(env.now - sq.last_read_ts > SQWriter.MIN_READ_TIME ∧ msg ≠ str "\n") →
        (SQWriter.write env sn sq ps msg).2.2 = ps)) := by
  constructor
  · intro h
    simp [SQWriter.write, h]
  · intro hmsg
    refine ⟨?_, ?_, ?_, ?_⟩
    · by_cases hc : env.now - sq.last_read_ts > SQWriter.MIN_READ_TIME ∧ msg ≠ str "\n" <;>
        simp [SQWriter.write, hmsg, hok, hc]
    · by_cases hc : env.now - sq.last_read_ts > SQWriter.MIN_READ_TIME ∧ msg ≠ str "\n" <;>
        simp [SQWriter.write, hmsg, hok, hc]
    · intro hc
      have hgl : (lineHeadOf (nowTimestr env.hour env.minute env.second env.micro) sn
          ++ msg).getLast? = msg.getLast? :=
        List.getLast?_append_of_ne_nil _ hmsg
      constructor
      · intro hnl
        have hd : (lineHeadOf (nowTimestr env.hour env.minute env.second env.micro) sn
            ++ msg).dropLast =
            lineHeadOf (nowTimestr env.hour env.minute env.second env.micro) sn
              ++ msg.dropLast :=
          List.dropLast_append_of_ne_nil _ hmsg
        simp [SQWriter.write, hmsg, hok, hc, hgl, hnl, hd]
      · intro hnl
        simp [SQWriter.write, hmsg, hok, hc, hgl, hnl]
    · intro hc
      simp [SQWriter.write, hmsg, hok, hc]

/-- Witness for C5: a concrete stale write of a newline-terminated text. -/
theorem claim_C5_witness :
    let env : SQWriter.WriteEnv :=
      { now := 10, hour := 12, minute := 34, second := 56, micro := 789012,
        put_raises := false }
    let sq : StreamQueue :=
      { queue := [], last_read_ts := 0, _last_stream := none,
        _on_new_line := true, initial_streams := none }
    let ps : ProcIO :=
      { sys_stdout := .sqWriter (str "W1"), sys_stderr := .sqWriter (str "W1 ERR"),
        dunder_stdout := .real 1, dunder_stderr := .real 2, terminal := [] }
    (SQWriter.write env (str "W1") sq ps (str "hello\n")).2.1 =
      { sq with queue := [⟨nowTimestr 12 34 56 789012, str "W1", str "hello\n"⟩] } ∧
    (SQWriter.write env (str "W1") sq ps (str "hello\n")).2.2 =
      { ps with terminal :=
          [lineHeadOf (nowTimestr 12 34 56 789012) (str "W1") ++ (str "hello\n").dropLast] } := by
  intro env sq ps
  have h := claim_C5 env (str "W1") sq ps (str "hello\n") rfl
  refine ⟨(h.2 (by decide)).2.1, ?_⟩
  have := ((h.2 (by decide)).2.2.1 (by decide)).1 (by decide)
  simpa using this

/-- Splitting an append at a newline: when the left part contains no newline,
the split point lies in the right part. -/
theorem split_append_of_notMem {l₁ l₂ xs ys : Str} (hl : '\n' ∉ l₁) :
    l₁ ++ l₂ = xs ++ '\n' :: ys → ∃ xs₂, l₂ = xs₂ ++ '\n' :: ys ∧ xs = l₁ ++ xs₂ := by
  induction l₁ generalizing xs with
  | nil => intro h; exact ⟨xs, h, rfl⟩
  | cons c l₁ ih =>
      intro h
      match xs, h with
      | [], h =>
          have : c = '\n' := by simpa using congrArg (List.head? ·) h
          exact absurd (this ▸ List.mem_cons_self c l₁) hl
      | x :: xs', h =>
          have hc : c = x := by simpa using congrArg (List.head? ·) h
          have ht : l₁ ++ l₂ = xs' ++ '\n' :: ys := by simpa using congrArg (List.tail ·) h
          obtain ⟨xs₂, h₁, h₂⟩ := ih (fun hm => hl (List.mem_cons_of_mem c hm)) ht
          exact ⟨xs₂, h₁, by simp [hc, h₂]⟩

/-- In the output of replaceNl with replacement newline-then-head, where head
itself contains no newline, every newline is immediately followed by head. -/
theorem replaceNl_head_after_newline {head : Str} (hh : '\n' ∉ head) :
    ∀ (s xs ys : Str), replaceNl ('\n' :: head) s = xs ++ '\n' :: ys →
      ∃ t, head ++ t = ys := by
  intro s
  induction s with
  | nil => intro xs ys h; simp [replaceNl] at h
  | cons c cs ih =>
      intro xs ys h
      by_cases hc : c = '\n'
      · simp only [replaceNl, hc, if_pos rfl] at h
        match xs, h with
        | [], h =>
            have : head ++ replaceNl ('\n' :: head) cs = ys := by
              simpa using congrArg (List.tail ·) h
            exact ⟨replaceNl ('\n' :: head) cs, this⟩
        | x :: xs', h =>
            have ht : head ++ replaceNl ('\n' :: head) cs = xs' ++ '\n' :: ys := by
              simpa using congrArg (List.tail ·) h
            obtain ⟨xs₂, h₁, _⟩ := split_append_of_notMem hh ht
            exact ih xs₂ ys h₁
      · simp only [replaceNl, if_neg hc] at h
        match xs, h with
        | [], h =>
            have : c = '\n' := by simpa using congrArg (List.head? ·) h
            exact absurd this hc
        | x :: xs', h =>
            have ht : replaceNl ('\n' :: head) cs = xs' ++ '\n' :: ys := by
              simpa using congrArg (List.tail ·) h
            exact ih xs' ys ht

/-- The expanded body of one drained message (replaceNl output followed by the
final character): every newline is either the trailing final one or is
immediately followed by head. -/
theorem body_head_after_newline {head s : Str} {lastc : Char} (hh : '\n' ∉ head)
    (xs ys : Str)
    (h : replaceNl ('\n' :: head) s ++ [lastc] = xs ++ '\n' :: ys) :
    ys = [] ∨ ∃ t, head ++ t = ys := by
  rcases eq_or_ne ys [] with h0 | h0
  · exact Or.inl h0
  · right
    have hys : ys.dropLast ++ [ys.getLast h0] = ys := List.dropLast_append_getLast h0
    rw [← hys] at h
    have h' : replaceNl ('\n' :: head) s ++ [lastc] =
        (xs ++ '\n' :: ys.dropLast) ++ [ys.getLast h0] := by
      rw [h]; simp
    obtain ⟨h₁, -⟩ := List.append_inj' h' rfl
    obtain ⟨t, ht⟩ := replaceNl_head_after_newline hh s _ _ h₁
    exact ⟨t ++ [ys.getLast h0], by rw [← List.append_assoc, ht, hys]⟩

/-- Claim C6: in the text StreamQueue.get produces for a drained message, the
line head is emitted when the previous output ended at a line boundary,
suppressed mid-line for the same stream, and preceded by a forced newline
mid-line for a different stream; every embedded newline of the message body
is followed by a repeated line head except a trailing final newline; and
last_read_ts is set to the drain time even when no messages were found. -/
theorem claim_C6 (m : SQMessage) (last : Option Str) (now : Int)
    (hmsg : m.msg ≠ []) (ht : '\n' ∉ m.timestr) (hn : '\n' ∉ m.stream_name) :
    (∃ body onl,
      StreamQueue.getStep false (some m.stream_name) m =
        .ok (body, onl, some m.stream_name) ∧
      StreamQueue.getStep true last m =
        .ok (lineHeadOf m.timestr m.stream_name ++ body, onl, some m.stream_name) ∧
      (last ≠ some m.stream_name →
        StreamQueue.getStep false last m =
          .ok ('\n' :: (lineHeadOf m.timestr m.stream_name ++ body), onl,
               some m.stream_name)) ∧
      (∀ xs ys, body = xs ++ '\n' :: ys →
        ys = [] ∨ ∃ t, lineHeadOf m.timestr m.stream_name ++ t = ys)) ∧
    (∀ sq : StreamQueue, sq.queue = [] →
      StreamQueue.get sq now = .ok ([], { sq with last_read_ts := now })) ∧
    (∀ (sq : StreamQueue) (out : Str) (sq' : StreamQueue),
      StreamQueue.get sq now = .ok (out, sq') → sq'.last_read_ts = now) := by
  have hh : '\n' ∉ lineHeadOf m.timestr m.stream_name := by
    simp only [lineHeadOf, str, List.mem_append]
    rintro ((((h | h) | h) | h) | h)
    · simp at h
    · exact ht h
    · simp at h
    · exact hn h
    · simp at h
  obtain ⟨lastc, hlast⟩ : ∃ c, m.msg.getLast? = some c :=
    ⟨m.msg.getLast hmsg, List.getLast?_eq_getLast_of_ne_nil hmsg⟩
  refine ⟨⟨replaceNl ('\n' :: lineHeadOf m.timestr m.stream_name) m.msg.dropLast
      ++ [lastc], decide (lastc = '\n'), ?_, ?_, ?_, ?_⟩, ?_, ?_⟩
  · simp [StreamQueue.getStep, hlast]
  · simp [StreamQueue.getStep, hlast]
  · intro hne
    simp [StreamQueue.getStep, hlast, Ne.symm hne, str]
  · intro xs ys h
    exact body_head_after_newline hh xs ys h
  · intro sq hq
    cases sq
    simp_all [StreamQueue.get, StreamQueue.getLoop]
  · intro sq out sq' h
    cases hl : StreamQueue.getLoop sq._on_new_line sq._last_stream [] sq.queue with
    | error e => simp [StreamQueue.get, hl] at h
    | ok r =>
        obtain ⟨o, onl, lst⟩ := r
        simp only [StreamQueue.get, hl] at h
        cases h
        rfl

/-- Witness for C6: draining an empty queue still stamps last_read_ts. -/
theorem claim_C6_witness :
    StreamQueue.get
      { queue := [], last_read_ts := 0, _last_stream := none,
        _on_new_line := true, initial_streams := none } 42 =
      .ok ([],
        { queue := [], last_read_ts := 42, _last_stream := none,
          _on_new_line := true, initial_streams := none }) := by
  have h := claim_C6 ⟨str "12:00:00.000", str "W1", str "x"⟩ none 42
    (by decide) (by decide) (by decide)
  exact h.2.1 _ rfl

/-- Every ask enqueues its query on the query channel, whatever the outcome. -/
theorem ask_query_queue (sm : ServerManager) (q : List String) (t : Option Int) :
    (sm.ask q t).2.query_queue = sm.query_queue ++ [q] := by
  unfold ServerManager.ask
  cases hg : ServerManager._get_response sm.response_queue
      (ServerManager._effective_timeout t sm.query_timeout) with
  | some p =>
      obtain ⟨r, rest⟩ := p
      cases herr : sm.error_queue <;>
        simp [hg, herr, ServerManager._check_for_errors]
  | none =>
      cases herr : sm.error_queue <;>
        simp [hg, herr, ServerManager._ask_empty, ServerManager._check_for_errors]

/-- Claim C3: write enqueues the argument tuple on the query channel; then,
when the error channel is non-empty, exactly one message is pulled from it,
the formatted header plus the error text is printed to the controller error
stream, and a RuntimeError is raised whose text includes the manager name;
when the error channel is empty, write returns normally. -/
theorem claim_C3 (sm : ServerManager) (query : List String) :
    ((sm.write query).2.query_queue = sm.query_queue ++ [query]) ∧
    (sm.error_queue = [] →
      sm.write query = (.ok (), { sm with query_queue := sm.query_queue ++ [query] })) ∧
    (∀ e rest, sm.error_queue = e :: rest →
      ∃ pre post,
        sm.write query =
          (.error (.runtimeError (pre ++ sm.name ++ post)),
           { sm with query_queue := sm.query_queue ++ [query],
                     error_queue := rest,
                     stderr := sm.stderr ++ [pre ++ sm.name ++ post ++ "\n\n" ++ e] })) := by
  refine ⟨?_, ?_, ?_⟩
  · cases h : sm.error_queue <;>
      simp [ServerManager.write, ServerManager._check_for_errors, h]
  · intro h
    simp [ServerManager.write, ServerManager._check_for_errors, h]
  · intro e rest h
    refine ⟨"*** error on ", " ***", ?_⟩
    simp [ServerManager.write, ServerManager._check_for_errors, h]

/-- Witness for C3 at a concrete manager with one pending error. -/
theorem claim_C3_witness :
    ∃ pre post,
      ServerManager.write
        ⟨"srv", [], [], ["boom"], 2, "srv", true, []⟩ [ "cmd"] =
        (.error (.runtimeError (pre ++ "srv" ++ post)),
         ⟨"srv", [["cmd"]], [], [], 2, "srv", true,
          [pre ++ "srv" ++ post ++ "\n\n" ++ "boom"]⟩) := by
  have h := (claim_C3 ⟨"srv", [], [], ["boom"], 2, "srv", true, []⟩ [ "cmd"]).2.2
    "boom" [] rfl
  obtain ⟨pre, post, hw⟩ := h
  exact ⟨pre, post, by simpa using hw⟩

/-- Claim C9: a falsy timeout argument (the number zero, like the omitted
None) is replaced by the default query_timeout, so ask with timeout zero
behaves exactly as ask with the default. -/
theorem claim_C9 (sm : ServerManager) (q : List String) :
    ServerManager._effective_timeout (some 0) sm.query_timeout = sm.query_timeout ∧
    sm.ask q (some 0) = sm.ask q none := by
  constructor
  · simp [ServerManager._effective_timeout]
  · simp [ServerManager.ask, ServerManager._effective_timeout]

/-- Counterexample to C2 as stated: a response that has already arrived
within the timeout is not returned when the error channel is non-empty; the
pending error is raised instead. -/
theorem claim_C2_counterexample :
    (ServerManager._get_response
        (ServerManager.response_queue ⟨"srv", [], [(1, "reply")], ["boom"], 2, "srv", true, []⟩)
        (ServerManager.query_timeout ⟨"srv", [], [(1, "reply")], ["boom"], 2, "srv", true, []⟩) =
      some ("reply", [])) ∧
    ((ServerManager.ask ⟨"srv", [], [(1, "reply")], ["boom"], 2, "srv", true, []⟩
        [ "q"] none).1 ≠ .ok "reply") ∧
    ((ServerManager.ask ⟨"srv", [], [(1, "reply")], ["boom"], 2, "srv", true, []⟩
        [ "q"] none).1 = .error (.runtimeError "*** error on srv ***")) := by
  refine ⟨rfl, ?_, rfl⟩
  intro h
  rw [show (ServerManager.ask ⟨"srv", [], [(1, "reply")], ["boom"], 2, "srv", true, []⟩
      [ "q"] none).1 = .error (.runtimeError "*** error on srv ***") from rfl] at h
  exact Except.noConfusion h

/-- Claim C2 (amended): ask enqueues the query and waits on the response
channel up to the timeout, defaulting to query_timeout. On a timeout with the
error channel empty, the Empty timeout error is re-raised as-is; on a timeout
with the error channel non-empty, the pending error is raised through
_check_for_errors exactly as write raises it; when a response arrives within
the timeout AND the error channel is empty, ask returns the dequeued
response. -/
theorem claim_C2 (sm : ServerManager) (q : List String) :
    ((sm.ask q none).2.query_queue = sm.query_queue ++ [q]) ∧
    (ServerManager._get_response sm.response_queue sm.query_timeout = none →
      sm.error_queue = [] →
      sm.ask q none =
        (.error .empty, { sm with query_queue := sm.query_queue ++ [q] })) ∧
    (ServerManager._get_response sm.response_queue sm.query_timeout = none →
      sm.error_queue ≠ [] →
      ∃ e,
        sm.ask q none =
          (.error e,
           (ServerManager._check_for_errors
              { sm with query_queue := sm.query_queue ++ [q] }).2) ∧
        (ServerManager._check_for_errors
            { sm with query_queue := sm.query_queue ++ [q] }).1 = .error e) ∧
    (∀ r rest,
      ServerManager._get_response sm.response_queue sm.query_timeout = some (r, rest) →
      sm.error_queue = [] →
      sm.ask q none =
        (.ok r, { sm with query_queue := sm.query_queue ++ [q],
                          response_queue := rest })) := by
  refine ⟨ask_query_queue sm q none, ?_, ?_, ?_⟩
  · intro hg he
    simp [ServerManager.ask, ServerManager._effective_timeout, hg,
          ServerManager._ask_empty, he]
  · intro hg he
    rcases herr : sm.error_queue with - | ⟨e, rest⟩
    · exact absurd herr he
    · refine ⟨.runtimeError ("*** error on " ++ sm.name ++ " ***"), ?_, ?_⟩ <;>
        simp [ServerManager.ask, ServerManager._effective_timeout, hg,
              ServerManager._ask_empty, ServerManager._check_for_errors, herr]
  · intro r rest hg he
    simp [ServerManager.ask, ServerManager._effective_timeout, hg,
          ServerManager._check_for_errors, he]

/-- Witness for C2 at three concrete managers: a clean timeout, a timeout
with a pending error, and a response within the timeout with no error. -/
theorem claim_C2_witness :
    (ServerManager.ask ⟨"a", [], [], [], 2, "a", true, []⟩ [ "q"] none =
      (.error .empty, ⟨"a", [["q"]], [], [], 2, "a", true, []⟩)) ∧
    (∃ e,
      ServerManager.ask ⟨"b", [], [], ["err1"], 2, "b", true, []⟩ [ "q"] none =
        (.error e,
         (ServerManager._check_for_errors ⟨"b", [["q"]], [], ["err1"], 2, "b", true, []⟩).2) ∧
      (ServerManager._check_for_errors ⟨"b", [["q"]], [], ["err1"], 2, "b", true, []⟩).1 =
        .error e) ∧
    (ServerManager.ask ⟨"c", [], [(1, "r")], [], 2, "c", true, []⟩ [ "q"] none =
      (.ok "r", ⟨"c", [["q"]], [], [], 2, "c", true, []⟩)) := by
  refine ⟨?_, ?_, ?_⟩
  · have h := (claim_C2 ⟨"a", [], [], [], 2, "a", true, []⟩ [ "q"]).2.1 rfl rfl
    simpa using h
  · have h := (claim_C2 ⟨"b", [], [], ["err1"], 2, "b", true, []⟩ [ "q"]).2.2.1 rfl
      (by simp)
    obtain ⟨e, h₁, h₂⟩ := h
    exact ⟨e, by simpa using h₁, by simpa using h₂⟩
  · have h := (claim_C2 ⟨"c", [], [(1, "r")], [], 2, "c", true, []⟩ [ "q"]).2.2.2 "r" []
      (by decide) rfl
    simpa using h

/-- Claim C10: when a response is dequeued within the timeout but the error
channel is non-empty, ask raises the pending RuntimeError; the already
dequeued response is discarded, not returned. -/
theorem claim_C10 (sm : ServerManager) (q : List String) (r : String)
    (rest : List (Int × String)) (e : String) (es : List String)
    (hresp : ServerManager._get_response sm.response_queue sm.query_timeout =
      some (r, rest))
    (herr : sm.error_queue = e :: es) :
    sm.ask q none =
      (.error (.runtimeError ("*** error on " ++ sm.name ++ " ***")),
       { sm with query_queue := sm.query_queue ++ [q],
                 response_queue := rest,
                 error_queue := es,
                 stderr := sm.stderr ++
                   ["*** error on " ++ sm.name ++ " ***" ++ "\n\n" ++ e] }) := by
  simp [ServerManager.ask, ServerManager._effective_timeout, hresp,
        ServerManager._check_for_errors, herr]

/-- Witness for C10 at a concrete manager holding both a response and an
error. -/
theorem claim_C10_witness :
    ServerManager.ask ⟨"srv", [], [(1, "reply")], ["boom"], 2, "srv", true, []⟩
        [ "q"] none =
      (.error (.runtimeError ("*** error on " ++ "srv" ++ " ***")),
       ⟨"srv", [["q"]], [], [], 2, "srv", true,
        ["*** error on " ++ "srv" ++ " ***" ++ "\n\n" ++ "boom"]⟩) := by
  have h := claim_C10 ⟨"srv", [], [(1, "reply")], ["boom"], 2, "srv", true, []⟩
    [ "q"] "reply" [] "boom" [] (by decide) rfl
  simpa using h

/-- Claim C7: halt on a dead worker does not raise, skips the ask and only
joins; halt on a live worker sends the literal query halt through ask and,
when the ask succeeds, joins the process until it is no longer alive. -/
theorem claim_C7 (sm : ServerManager) :
    (sm.server_alive = false → sm.halt = (.ok (), sm)) ∧
    (sm.server_alive = true →
      (sm.halt).2.query_queue = sm.query_queue ++ [["halt"]] ∧
      ((sm.halt).1.isOk = true → (sm.halt).2.server_alive = false)) := by
  constructor
  · intro h
    cases sm
    simp_all [ServerManager.halt, ServerManager.join]
  · intro h
    rcases hask : ServerManager.ask sm [ "halt"] none with ⟨res, sm'⟩
    have hq := ask_query_queue sm [ "halt"] none
    rw [hask] at hq
    have hq' : sm'.query_queue = sm.query_queue ++ [["halt"]] := by simpa using hq
    cases res <;>
      simp [ServerManager.halt, h, hask, ServerManager.join, hq', Except.isOk, Except.toBool]

/-- Witness for C7 at a concrete dead manager and a concrete live manager
whose server answers the halt query promptly. -/
theorem claim_C7_witness :
    (ServerManager.halt ⟨"d", [], [], [], 2, "d", false, []⟩ =
      (.ok (), ⟨"d", [], [], [], 2, "d", false, []⟩)) ∧
    ((ServerManager.halt ⟨"a", [], [(1, "x")], [], 2, "a", true, []⟩).2.query_queue =
      [["halt"]]) ∧
    ((ServerManager.halt ⟨"a", [], [(1, "x")], [], 2, "a", true, []⟩).2.server_alive =
      false) := by
  refine ⟨(claim_C7 _).1 rfl, ?_, ?_⟩
  · have h := ((claim_C7 ⟨"a", [], [(1, "x")], [], 2, "a", true, []⟩).2 rfl).1
    simpa using h
  · exact ((claim_C7 ⟨"a", [], [(1, "x")], [], 2, "a", true, []⟩).2 rfl).2 rfl

/-- Claim C1 (code bug): restart can never leave the manager with a live
worker, because after halt it evaluates the call of _start_server with its
required positional argument name missing, which raises TypeError; at a
concrete manager whose worker already exited, restart raises TypeError and
starts nothing. -/
theorem claim_C1 :
    (∀ sm : ServerManager, (sm.restart).1.isOk = false) ∧
    (ServerManager.restart ⟨"srv", [], [], [], 2, "srv", false, []⟩ =
      (.error (.typeError "_start_server missing 1 required positional argument"),
       ⟨"srv", [], [], [], 2, "srv", false, []⟩)) := by
  constructor
  · intro sm
    rcases h : ServerManager.halt sm with ⟨res, sm'⟩
    cases res <;> simp [ServerManager.restart, h, Except.isOk, Except.toBool]
  · rfl
